import Mathlib

/-!
Verification of the background-coding-agents core against its specification.

The Python source is shallowly embedded: Python strings are Lean `String`
(manipulated through their `List Char` data), dicts produced by the code are
fixed-shape structures, dict keys that may be absent are `Option` fields read
back with the `.get(key, default)` semantics, and calls into the external
generation capability or external verifiers are passed in as `Except`-valued
arguments (an `.error` value stands for a raised exception caught by the
enclosing `try`/`except` of the caller).
-/

namespace BCA

/-! ## Python string primitives -/

/-- Python whitespace characters stripped by `str.strip()` (ASCII subset). -/
def py_whitespace : List Char := [' ', '\t', '\n', '\r', '\x0b', '\x0c']

/-- `str.strip()` on the character list. -/
def py_strip_list (l : List Char) : List Char :=
  ((l.dropWhile (py_whitespace.contains ·)).reverse.dropWhile
    (py_whitespace.contains ·)).reverse

/-- Python `s.strip()`. -/
def py_strip (s : String) : String := String.mk (py_strip_list s.data)

/-- Does the second list start with the first one? -/
def leads_with : List Char → List Char → Bool
  | [], _ => true
  | _ :: _, [] => false
  | p :: ps, c :: cs => p == c && leads_with ps cs

/-- Substring test on character lists (needle occurs somewhere in hay). -/
def has_sub (n : List Char) : List Char → Bool
  | [] => n.isEmpty
  | c :: t => leads_with n (c :: t) || has_sub n t

/-- Python `needle in hay` on strings. -/
def py_in (needle hay : String) : Bool := has_sub needle.data hay.data

/-- Python `s.upper()` (ASCII letters; the source only compares ASCII). -/
def py_upper (s : String) : String := String.mk (s.data.map Char.toUpper)

/-- Python `s.lower()` (ASCII letters). -/
def py_lower (s : String) : String := String.mk (s.data.map Char.toLower)

/-- Python `s.startswith(p)`. -/
def py_startswith (p s : String) : Bool := leads_with p.data s.data

/-- Split once at the first occurrence of `sep`: `some (before, after)`,
or `none` when `sep` does not occur. -/
def py_split_once (sep : List Char) : List Char → Option (List Char × List Char)
  | [] => none
  | c :: rest =>
    if leads_with sep (c :: rest) then some ([], (c :: rest).drop sep.length)
    else
      match py_split_once sep rest with
      | none => none
      | some (pre, post) => some (c :: pre, post)

/-- Python `s.split(sep, maxsplit)` for a non-empty separator. -/
def py_split_n (sep : List Char) : Nat → List Char → List (List Char)
  | 0, s => [s]
  | n + 1, s =>
    match py_split_once sep s with
    | none => [s]
    | some (pre, post) => pre :: py_split_n sep n post

/-- Python `s.split(sep)` without a split bound: a non-empty separator splits
at most `len(s)` times, so a fuel of `len(s) + 1` is exact. -/
def py_split (sep s : String) : List String :=
  (py_split_n sep.data (s.data.length + 1) s.data).map String.mk

/-- Line-break characters recognised by Python `str.splitlines()`. -/
def py_linebreaks : List Char :=
  ['\n', '\r', '\x0b', '\x0c', '\x1c', '\x1d', '\x1e', '\x85', '\u2028', '\u2029']

/-- Worker for `py_splitlines`: `cur` holds the current line reversed. -/
def py_splitlines_aux : List Char → List Char → List String
  | [], cur => if cur.isEmpty then [] else [String.mk cur.reverse]
  | '\r' :: '\n' :: rest, cur => String.mk cur.reverse :: py_splitlines_aux rest []
  | c :: rest, cur =>
    if py_linebreaks.contains c then
      String.mk cur.reverse :: py_splitlines_aux rest []
    else py_splitlines_aux rest (c :: cur)

/-- Python `s.splitlines()`. -/
def py_splitlines (s : String) : List String := py_splitlines_aux s.data []

/-! ## Data model: changes (models/changes.py) -/

/-- The fields of `PLCChange` read by the verifiers and the derived line
counters (`model_dump()` always materialises these keys). -/
structure PyChange where
  file_path : String
  old_code : String
  new_code : String
  reason : String := ""
deriving Repr, DecidableEq

/-- `len(s.splitlines())` as used by the `lines_added`/`lines_removed`
computed fields. -/
def count_lines (s : String) : Nat := (py_splitlines s).length

/-- `PLCChange.lines_added`: `max(0, new_lines - old_lines)`. -/
def lines_added (c : PyChange) : Int :=
  max 0 ((count_lines c.new_code : Int) - (count_lines c.old_code : Int))

/-- `PLCChange.lines_removed`: `max(0, old_lines - new_lines)`. -/
def lines_removed (c : PyChange) : Int :=
  max 0 ((count_lines c.old_code : Int) - (count_lines c.new_code : Int))

/-- Concrete change used to instantiate theorems with hypotheses. -/
def sample_change : PyChange :=
  { file_path := "src/main_program.st"
    old_code := "A := 1;\nB := 2;"
    new_code := "A := 1;\nB := 2;"
    reason := "no-op" }

/-! ## Verification outcome dicts and their aggregation
(`FleetManager._run_agent_on_site`, `PLCAgent._final_verification`) -/

/-- A verifier result dict as read back by the aggregation code: only the
`passed` and `critical` keys are consulted, each possibly absent. -/
structure VerifierOutcome where
  passed : Option Bool
  critical : Option Bool := none
deriving Repr, DecidableEq

/-- `all(r.get("passed", False) for r in results)` — the aggregation used both
in `FleetManager._run_agent_on_site` (`all_passed`) and in
`PLCAgent._final_verification`. -/
def aggregate_all_passed (rs : List VerifierOutcome) : Bool :=
  rs.all (fun r => r.passed.getD false)

/-- A verifier call wrapped in `try`/`except`: a raised exception is recorded
as the dict `{"passed": False, "error": ...}`. -/
def except_outcome (r : Except Unit VerifierOutcome) : VerifierOutcome :=
  match r with
  | .ok o => o
  | .error _ => { passed := some false }

/-- `PLCAgent._final_verification`: with no accumulated changes it returns
`True` immediately; otherwise it aggregates the compiler and safety verifier
results (passed in here as the outcomes of the two guarded external calls). -/
def final_verification (changes : List PyChange)
    (compiler_result safety_result : Except Unit VerifierOutcome) : Bool :=
  if changes.isEmpty then true
  else aggregate_all_passed [except_outcome compiler_result, except_outcome safety_result]

/-! ## LLM judge (`FleetManager._run_llm_judge`) -/

/-- The judge dict: `passed` always present, `confidence` present only on the
path that actually consulted the generation capability. Confidence values are
modelled as rationals. -/
structure JudgeResult where
  passed : Bool
  confidence : Option ℚ := none
deriving Repr, DecidableEq

/-- The body of `_run_llm_judge` after a successful generation call with
non-`None` content: uppercase the content, take the verdict from an
`"APPROVED"` substring test, extract the confidence from the first
`CONFIDENCE:` line (keeping the `0.8` default when absent or unparsable), and
pass iff approved and the confidence meets the threshold. The `float(...)`
parsing primitive of the runtime is passed in as `parse_float`. -/
def judge_of_content (threshold : ℚ) (parse_float : String → Option ℚ)
    (c : String) : JudgeResult :=
  let content := py_upper c
  let approved := py_in "APPROVED" content
  let confidence : ℚ :=
    if py_in "CONFIDENCE:" content then
      (parse_float (py_strip
        ((py_split ":" (((py_split "\n" content).filter
          (fun l => py_in "CONFIDENCE:" l)).headI)).getLastD ""))).getD (8 / 10)
    else 8 / 10
  { passed := approved && decide (threshold ≤ confidence), confidence := some confidence }

/-- `FleetManager._run_llm_judge`: empty change list or disabled judge pass
immediately; a generation error, or `None` content (whose `.upper()` raises
inside the same `try`), falls back to pass (fail-open); otherwise the content
is judged by `judge_of_content`. -/
def run_llm_judge (changes : List PyChange) (judge_enabled : Bool) (threshold : ℚ)
    (gen : Except Unit (Option String)) (parse_float : String → Option ℚ) :
    JudgeResult :=
  if changes.isEmpty then { passed := true }
  else if !judge_enabled then { passed := true }
  else
    match gen with
    | .error _ => { passed := true }
    | .ok none => { passed := true }
    | .ok (some c) => judge_of_content threshold parse_float c

/-- Concrete outcome list used to instantiate the aggregation theorem. -/
def sample_outcomes : List VerifierOutcome :=
  [{ passed := some true }, { passed := some false, critical := some true }]

/-- Concrete stand-in for the runtime float parser. -/
def sample_parse_float : String → Option ℚ := fun _ => some (9 / 10)

/-! ## Planner (`PLCAgent._create_plan`, `PLCAgent._parse_plan_steps`) -/

/-- The fields of `PlanStep` populated by the planner (timestamps and the
result field are not read by any claim). Steps are created in status
`"pending"`. -/
structure PlanStep where
  step_number : Nat
  action : String
  target_file : Option String := none
  description : String
  status : String := "pending"
deriving Repr, DecidableEq

/-- The guard of the parser loop: `if not line or not line[0].isdigit():
continue` applied to the already-stripped line. -/
def kept_line (l : String) : Bool := !l.data.isEmpty && (l.data.headI).isDigit

/-- One iteration body of `_parse_plan_steps` for a kept (stripped,
digit-initial) line: drop the ordinal prefix up to the first `.`, split the
remainder on `" - "` at most twice, and fill action / target / description;
with fewer than three parts the description is the whole remainder. `n` is
`len(steps)` so far. -/
def parse_step_line (n : Nat) (line : String) : PlanStep :=
  let text := py_strip (String.mk ((py_split_n ['.'] 1 line.data).getLastD []))
  match py_split_n [' ', '-', ' '] 2 text.data with
  | [] =>
    { step_number := n + 1, action := "update", target_file := none, description := text }
  | [a] =>
    { step_number := n + 1, action := py_strip (String.mk a), target_file := none
      description := text }
  | [a, b] =>
    { step_number := n + 1, action := py_strip (String.mk a)
      target_file := some (py_strip (String.mk b)), description := text }
  | a :: b :: c :: _ =>
    { step_number := n + 1, action := py_strip (String.mk a)
      target_file := some (py_strip (String.mk b))
      description := py_strip (String.mk c) }

/-- The loop of `_parse_plan_steps`: accumulate a step per kept line, skip the
others. -/
def parse_plan_steps_aux : List String → List PlanStep → List PlanStep
  | [], acc => acc
  | line :: rest, acc =>
    let l := py_strip line
    if kept_line l then parse_plan_steps_aux rest (acc ++ [parse_step_line acc.length l])
    else parse_plan_steps_aux rest acc

/-- `PLCAgent._parse_plan_steps`: split on newlines, keep digit-initial
stripped lines, cap the result at 10 steps. -/
def parse_plan_steps (content : String) : List PlanStep :=
  (parse_plan_steps_aux (py_split "\n" content) []).take 10

/-- The stripped lines of the generation output that the parser keeps. -/
def kept_lines (content : String) : List String :=
  ((py_split "\n" content).map py_strip).filter kept_line

/-- Number a list of kept lines into steps starting at `len(steps) = n`. -/
def number_steps (n : Nat) : List String → List PlanStep
  | [] => []
  | l :: ls => parse_step_line n l :: number_steps (n + 1) ls

/-- The synthetic fallback plan steps built in the `except` branch of
`_create_plan`. -/
def default_plan_steps (files : List String) : List PlanStep :=
  [{ step_number := 1, action := "review", target_file := files.head?
     description := "Review and update code per task requirements" }]

/-- Python truthiness of an optional string (`None` and `""` are falsy). -/
def py_truthy_str : Option String → Bool
  | none => false
  | some s => s != ""

/-- The plan fields populated by `_create_plan` that claims read. -/
structure ExecutionPlanM where
  prompt : String
  relevant_files : List String
  steps : List PlanStep
  files_to_modify : List String := []
deriving Repr, DecidableEq

/-- `PLCAgent._create_plan`: a failed generation call, or empty/`None` content
(which raises `ValueError` into the same `except`), yields the synthetic
fallback plan; otherwise the content is parsed into steps. `files_to_modify`
is `list(set(...))` of the step targets (modelled as order-preserving
dedup; no claim depends on its order). -/
def create_plan (prompt : String) (files : List String)
    (gen : Except Unit (Option String)) : ExecutionPlanM :=
  match gen with
  | .ok content =>
    if py_truthy_str content then
      let steps := parse_plan_steps (content.getD "")
      { prompt, relevant_files := files, steps
        files_to_modify := (steps.filterMap (fun s => s.target_file)).dedup }
    else { prompt, relevant_files := files, steps := default_plan_steps files }
  | .error _ => { prompt, relevant_files := files, steps := default_plan_steps files }

/-! ## Site configuration (models/site.py)

Only the fields consulted by site filtering and the safety verifier are
modelled; enum-valued fields are carried as their string values, which is what
`model_dump()` hands to the verifiers and what the YAML filter configs hold. -/

/-- The `SiteConfig` fields read by `_filter_sites` and the verifiers. -/
structure SiteM where
  name : String
  location : String := ""
  plc_type : String := "Other"
  firmware_version : String := "2.9"
  safety_rating : String := "SIL-1"
  tags : List String := []
  certified_modules : List String := []
deriving Repr, DecidableEq

/-! ## Safety verifier (verifiers/safety_verifier.py) -/

/-- Position after the first `*/` in the list, if any — the extent of the
non-greedy `/\*.*?\*/` comment match. -/
def after_close : List Char → Option (List Char)
  | [] => none
  | '*' :: '/' :: rest => some rest
  | _ :: rest => after_close rest

/-- The comment-removing `re.sub` of the safety verifier, whose raw pattern
is the alternation of `//.*` and `/\*.*?\*/` with DOTALL: with DOTALL the
`//.*` branch swallows the remainder of the whole string, and `/\*.*?\*/`
removes through the first `*/`; an unclosed `/*` matches nothing and scanning
resumes one character later. Fuel is the input length plus one, which the
left-to-right scan never exhausts. -/
def strip_comments_aux : Nat → List Char → List Char
  | 0, s => s
  | _ + 1, [] => []
  | _ + 1, '/' :: '/' :: _ => []
  | fuel + 1, '/' :: '*' :: rest =>
    match after_close rest with
    | some rest2 => strip_comments_aux fuel rest2
    | none => '/' :: strip_comments_aux fuel ('*' :: rest)
  | fuel + 1, c :: rest => c :: strip_comments_aux fuel rest

/-- Comment removal on strings. -/
def strip_comments (s : String) : String :=
  String.mk (strip_comments_aux (s.data.length + 1) s.data)

/-- `SafetyVerifier._is_comment_only_change`: strip comments from both sides
and compare the stripped texts. -/
def is_comment_only_change (c : PyChange) : Bool :=
  py_strip (strip_comments c.old_code) == py_strip (strip_comments c.new_code)

/-- `re.search(pat, code, re.IGNORECASE)` for a literal pattern. -/
def search_ci (pat code : String) : Bool := py_in (py_upper pat) (py_upper code)

/-- `re.search` for a two-literal pattern `A.*B` (no DOTALL: `.` does not
cross a newline), case-insensitively: `a` occurs and `b` occurs after it on
the same line. -/
def gap_search_aux (a b : List Char) : List Char → Bool
  | [] => a.isEmpty && b.isEmpty
  | c :: t =>
    (leads_with a (c :: t) &&
      has_sub b (((c :: t).drop a.length).takeWhile (fun x => x != '\n'))) ||
    gap_search_aux a b t

/-- Case-insensitive `A.*B` search on strings. -/
def search_gap_ci (a b code : String) : Bool :=
  gap_search_aux (py_upper a).data (py_upper b).data (py_upper code).data

/-- The emergency-stop identifier patterns of `_check_emergency_stops`. -/
def estop_patterns : List String :=
  ["E_STOP", "EMERGENCY_STOP", "EMG_STOP", "SAFETY_STOP"]

/-- A change that trips `_check_emergency_stops`: some e-stop pattern occurs
in its new code and the change is not comment-only. -/
def estop_violation (c : PyChange) : Bool :=
  estop_patterns.any (fun p => search_ci p c.new_code) && !is_comment_only_change c

/-- One sub-check dict of the safety verifier (the `severity` key is not read
by any caller). -/
structure SubCheckResult where
  passed : Bool
  check : String
  message : String
deriving Repr, DecidableEq

/-- `SafetyVerifier._check_emergency_stops`. -/
def check_emergency_stops (changes : List PyChange) : SubCheckResult :=
  match changes.find? estop_violation with
  | some _ => ⟨false, "emergency_stops", "Unauthorized E-stop modification detected"⟩
  | none => ⟨true, "emergency_stops", "Emergency stops unchanged"⟩

/-- A change containing one of the dangerous operation patterns `FORCE`,
`DISABLE.*SAFETY`, `BYPASS.*GUARD` in its new code. -/
def dangerous_change (c : PyChange) : Bool :=
  search_ci "FORCE" c.new_code || search_gap_ci "DISABLE" "SAFETY" c.new_code ||
    search_gap_ci "BYPASS" "GUARD" c.new_code

/-- `SafetyVerifier._check_safety_interlocks`. -/
def check_safety_interlocks (changes : List PyChange) : SubCheckResult :=
  match changes.find? dangerous_change with
  | some _ => ⟨false, "safety_interlocks", "Dangerous pattern detected"⟩
  | none => ⟨true, "safety_interlocks", "Safety interlocks verified"⟩

/-- `SafetyVerifier._check_guard_circuits` — unconditionally passing. -/
def check_guard_circuits (_changes : List PyChange) : SubCheckResult :=
  ⟨true, "guard_circuits", "Guard circuits intact"⟩

/-- The hardcoded forbidden-file list of `_check_forbidden_modifications` —
note that the site certified_modules list is NOT consulted there. -/
def forbidden_files : List String :=
  ["certified_safety_logic.st", "sil3_rated_module.st"]

/-- A change whose path contains one of the hardcoded forbidden file names as
a substring (`any(f in filepath for f in forbidden_files)`). -/
def forbidden_change (c : PyChange) : Bool :=
  forbidden_files.any (fun f => py_in f c.file_path)

/-- `SafetyVerifier._check_forbidden_modifications`. -/
def check_forbidden_modifications (changes : List PyChange) : SubCheckResult :=
  match changes.find? forbidden_change with
  | some c =>
    ⟨false, "forbidden_modifications", "Cannot modify certified file: " ++ c.file_path⟩
  | none => ⟨true, "forbidden_modifications", "No forbidden files modified"⟩

/-- `SafetyVerifier._verify_sil_compliance` — unconditionally passing. -/
def verify_sil_compliance (_changes : List PyChange) (rating : String) : SubCheckResult :=
  ⟨true, "sil_compliance", rating ++ " compliance maintained"⟩

/-- The aggregate safety dict. On success the source dict carries no
`critical` key and callers read it back through `.get("critical", False)`,
modelled here as `critical := false`. -/
structure SafetyVerifyResult where
  passed : Bool
  message : String
  critical : Bool
  details : List SubCheckResult
deriving Repr, DecidableEq

/-- `SafetyVerifier.verify`: run the five sub-checks and conjoin their
`passed` flags; any failure yields `passed=false` with `critical=true`. -/
def safety_verify (changes : List PyChange) (site : SiteM) : SafetyVerifyResult :=
  let results := [check_emergency_stops changes, check_safety_interlocks changes,
    check_guard_circuits changes, check_forbidden_modifications changes,
    verify_sil_compliance changes site.safety_rating]
  if results.all (fun r => r.passed) then
    { passed := true, message := "✓ All safety checks passed"
      critical := false, details := results }
  else
    { passed := false
      message := "✗ Safety verification failed (" ++
        toString (results.filter (fun r => !r.passed)).length ++ " issues)"
      critical := true, details := results }

/-- A site whose own certified-modules list names a file that is NOT in the
hardcoded forbidden-file list of the safety verifier. -/
def c3_site : SiteM :=
  { name := "Plant-07", certified_modules := ["custom_certified_module.st"]
    safety_rating := "SIL-2" }

/-- A benign change that targets the certified module of `c3_site`. -/
def c3_change : PyChange :=
  { file_path := "custom_certified_module.st", old_code := "A := 1;"
    new_code := "A := 2;", reason := "tune constant" }

/-- A change targeting a file from the hardcoded forbidden list. -/
def c3_amended_change : PyChange :=
  { file_path := "src/certified_safety_logic.st", old_code := "X;"
    new_code := "Y;", reason := "edit" }

/-! ## Fleet orchestrator (fleet_manager/cli.py) -/

/-- The `TargetFilter` fields as read back from
`model_dump(exclude_none=True)` by `_filter_sites` (absent keys and `None`
both become `none`; the declared `line_type` criterion is never consulted by
`_filter_sites` and is omitted). -/
structure TargetFilterM where
  plc_type : Option String := none
  firmware_version : Option String := none
  safety_rating : Option String := none
  location : Option String := none
  tags : List String := []
  exclude_sites : List String := []
  include_sites : List String := []
deriving Repr, DecidableEq

/-- Python truthiness of `filters.get(key)` for a string-valued criterion:
missing keys and empty strings are falsy. -/
def py_truthy_opt : Option String → Bool
  | none => false
  | some s => s != ""

/-- `SafetyRating.level`: the numeric level of a rating string; the source
mapping defaults unknown values to 0 (valid enum values are assumed here, so
the `ValueError` of the `SafetyRating` constructor is not modelled). -/
def safety_rating_level : String → Nat
  | "SIL-1" => 1
  | "SIL-2" => 2
  | "SIL-3" => 3
  | "SIL-4" => 4
  | _ => 0

/-- `FleetManager._filter_sites`: a non-empty include list short-circuits and
alone determines membership; otherwise the remaining criteria are applied in
sequence (exclusion list, PLC type equality, firmware-version prefix, minimum
safety rating, location substring case-insensitively, required tag subset). -/
def filter_sites (sites : List SiteM) (f : TargetFilterM) : List SiteM :=
  if f.include_sites != [] then
    sites.filter (fun s => f.include_sites.contains s.name)
  else
    let l1 := if f.exclude_sites != [] then
        sites.filter (fun s => !f.exclude_sites.contains s.name)
      else sites
    let l2 := if py_truthy_opt f.plc_type then
        l1.filter (fun s => s.plc_type == f.plc_type.getD "")
      else l1
    let l3 := if py_truthy_opt f.firmware_version then
        l2.filter (fun s => py_startswith (f.firmware_version.getD "") s.firmware_version)
      else l2
    let l4 := if py_truthy_opt f.safety_rating then
        l3.filter (fun s =>
          safety_rating_level (f.safety_rating.getD "") ≤
            safety_rating_level s.safety_rating)
      else l3
    let l5 := if py_truthy_opt f.location then
        l4.filter (fun s => py_in (py_lower (f.location.getD "")) (py_lower s.location))
      else l4
    if f.tags != [] then l5.filter (fun s => f.tags.all (fun t => s.tags.contains t))
    else l5

/-- The aggregate count fields of `MigrationResult` (§ the counts are what
claims C4 and C8 are about). -/
structure MigrationResultM where
  total_sites : Nat
  successful_sites : Nat
  failed_sites : Nat
  skipped_sites : Nat
deriving Repr, DecidableEq

/-- `FleetManager.run_migration` restricted to what determines the counts:
`mig = none` is the missing-migration early return; a non-empty
`target_sites` CLI list overrides the filter; an empty selection takes the
no-match early return; otherwise one agent run per selected site is
aggregated, with `site_success` standing for the per-site
`SiteMigrationResult.success` outcome. -/
def run_migration (fleet : List SiteM) (mig : Option TargetFilterM)
    (target_sites : List String) (site_success : SiteM → Bool) : MigrationResultM :=
  match mig with
  | none => ⟨0, 0, 0, 0⟩
  | some tf =>
    let filtered := if target_sites != [] then
        fleet.filter (fun s => target_sites.contains s.name)
      else filter_sites fleet tf
    if filtered.isEmpty then ⟨0, 0, 0, fleet.length⟩
    else
      let results := filtered.map site_success
      ⟨results.length, results.count true, results.count false,
        fleet.length - filtered.length⟩

/-- A one-site fleet. -/
def fleet_one : List SiteM := [{ name := "Plant-01" }]

/-- A filter whose include list matches no configured site. -/
def filter_nomatch : TargetFilterM := { include_sites := ["Plant-99"] }

/-- A five-site fleet containing `Plant-02`. -/
def fleet_five : List SiteM :=
  [{ name := "Plant-01" }, { name := "Plant-02" }, { name := "Plant-03" },
   { name := "Plant-04" }, { name := "Plant-05" }]

/-- The include filter of the C8 scenario. -/
def include_plant02 : TargetFilterM := { include_sites := ["Plant-02"] }

/-! ## Agent execution loop (`PLCAgent._execute_plan`, `PLCAgent._attempt_fix`)

One plan step interacts with the outside world through `_make_change` (which
catches its own generation errors and returns `None`), `_quick_verify` (pure)
and `_attempt_fix` (which catches its own generation errors). The
environment-determined outcome of a step is summarised by `StepBehavior`. -/

/-- Outcome of the external calls made while executing one step:
`raises` is an exception caught by the step-level `try`/`except`,
`noChange` is `_make_change` returning `None`, and `change q f` is a
produced change with `_quick_verify` result `q` and, when a fix is attempted,
fix-generation success `f`. -/
inductive StepBehavior where
  | raises : StepBehavior
  | noChange : StepBehavior
  | change (quick_verify_ok : Bool) (fix_generation_ok : Bool) : StepBehavior
deriving Repr, DecidableEq

/-- The agent configuration fields the execution loop reads. -/
structure AgentCfg where
  max_turns : Nat
  enable_quick_verify : Bool
deriving Repr, DecidableEq

/-- A step whose proposer call yields a change (a "proposable" step). -/
def is_proposing : StepBehavior → Bool
  | .change _ _ => true
  | _ => false

/-- The body of the `for step in plan.steps` loop for one executed step:
returns the new `turns_taken` and the step status it records. A produced
change increments the turn counter; a failed quick verification triggers
`_attempt_fix`, which increments the counter again when its generation call
succeeds (without re-checking the budget). -/
def execute_step (cfg : AgentCfg) (b : StepBehavior) (turns : Nat) : Nat × String :=
  match b with
  | .raises => (turns, "failed")
  | .noChange => (turns, "completed")
  | .change quick_ok fix_ok =>
    if cfg.enable_quick_verify && !quick_ok then
      (if fix_ok then turns + 2 else turns + 1, "completed")
    else (turns + 1, "completed")

/-- `PLCAgent._execute_plan`: consume the steps in order, breaking out as soon
as `turns_taken >= max_turns`; skipped steps keep their `"pending"` status.
Returns the final turn counter and the per-step statuses. -/
def execute_plan_loop (cfg : AgentCfg) : List StepBehavior → Nat → Nat × List String
  | [], turns => (turns, [])
  | b :: rest, turns =>
    if cfg.max_turns ≤ turns then (turns, (b :: rest).map (fun _ => "pending"))
    else
      ((execute_plan_loop cfg rest (execute_step cfg b turns).1).1,
        (execute_step cfg b turns).2 ::
          (execute_plan_loop cfg rest (execute_step cfg b turns).1).2)

/-- The execution phase started with a fresh context (`turns_taken = 0`). -/
def execute_plan (cfg : AgentCfg) (bs : List StepBehavior) : Nat × List String :=
  execute_plan_loop cfg bs 0

end BCA

namespace BCA

/-- C9: the derived line counters of a change are never negative, and a
change whose before and after texts coincide has both counters equal to 0. -/
theorem lines_added_removed_nonneg (c : PyChange) :
    0 ≤ lines_added c ∧ 0 ≤ lines_removed c ∧
      (c.old_code = c.new_code → lines_added c = 0 ∧ lines_removed c = 0) := by
  refine ⟨le_max_left _ _, le_max_left _ _, fun h => ?_⟩
  unfold lines_added lines_removed
  rw [h]
  simp

/-- C9 witness: the counters evaluated at a concrete change whose before and
after texts are equal. -/
theorem lines_added_removed_nonneg_witness :
    0 ≤ lines_added sample_change ∧ lines_added sample_change = 0 ∧
      lines_removed sample_change = 0 :=
  ⟨(lines_added_removed_nonneg sample_change).1,
   ((lines_added_removed_nonneg sample_change).2.2 rfl).1,
   ((lines_added_removed_nonneg sample_change).2.2 rfl).2⟩

/-- C1: if any verification outcome with `critical=true` has `passed=false`,
the aggregate `all_passed` conjunction is `false`, regardless of the other
outcomes. -/
theorem critical_failure_forces_all_passed_false (rs : List VerifierOutcome)
    (h : ∃ r ∈ rs, r.critical = some true ∧ r.passed = some false) :
    aggregate_all_passed rs = false := by
  obtain ⟨r, hr, -, hp⟩ := h
  simp only [aggregate_all_passed, List.all_eq_false]
  exact ⟨r, hr, by simp [hp]⟩

/-- C1 witness: a concrete outcome list with a passing outcome and a failing
critical one aggregates to `false`. -/
theorem critical_failure_forces_all_passed_false_witness :
    aggregate_all_passed sample_outcomes = false :=
  critical_failure_forces_all_passed_false sample_outcomes (by decide)

/-- C7: with changes to review and the judge enabled, a generation error (or
`None` content) makes the judge pass fail-open, and otherwise the judge passes
iff the verdict contains `APPROVED` and the reported confidence is at least
the configured threshold. -/
theorem judge_fail_open_and_threshold (changes : List PyChange) (threshold : ℚ)
    (gen : Except Unit (Option String)) (parse_float : String → Option ℚ)
    (hne : changes ≠ []) :
    ((gen = .error () ∨ gen = .ok none) →
        (run_llm_judge changes true threshold gen parse_float).passed = true) ∧
      (∀ c, gen = .ok (some c) →
        ((run_llm_judge changes true threshold gen parse_float).passed = true ↔
          py_in "APPROVED" (py_upper c) = true ∧
            threshold ≤
              (run_llm_judge changes true threshold gen parse_float).confidence.getD 0)) := by
  cases changes with
  | nil => exact absurd rfl hne
  | cons c0 cs =>
    constructor
    · rintro (rfl | rfl) <;> rfl
    · rintro c rfl
      show (judge_of_content threshold parse_float c).passed = true ↔
        _ ∧ threshold ≤ (judge_of_content threshold parse_float c).confidence.getD 0
      unfold judge_of_content
      simp only [Option.getD_some, Bool.and_eq_true, decide_eq_true_eq]

/-- C7 witness: the fail-open clause and the threshold clause evaluated on a
concrete judge invocation. -/
theorem judge_fail_open_and_threshold_witness :
    ((run_llm_judge [sample_change] true (7 / 10) (.error ()) sample_parse_float).passed
        = true) ∧
      ((run_llm_judge [sample_change] true (7 / 10)
            (.ok (some "VERDICT: APPROVED\nCONFIDENCE: 0.9")) sample_parse_float).passed
          = true ↔
        py_in "APPROVED" (py_upper "VERDICT: APPROVED\nCONFIDENCE: 0.9") = true ∧
          (7 / 10 : ℚ) ≤
            (run_llm_judge [sample_change] true (7 / 10)
              (.ok (some "VERDICT: APPROVED\nCONFIDENCE: 0.9"))
              sample_parse_float).confidence.getD 0) :=
  ⟨(judge_fail_open_and_threshold [sample_change] (7 / 10) (.error ())
      sample_parse_float (by decide)).1 (Or.inl rfl),
   (judge_fail_open_and_threshold [sample_change] (7 / 10)
      (.ok (some "VERDICT: APPROVED\nCONFIDENCE: 0.9")) sample_parse_float
      (by decide)).2 _ rfl⟩

/-- C10: with an empty accumulated change list, final verification returns
`true` whatever the two external verifier calls would have produced (they are
never consulted), and the judge passes without consulting the generation
capability; the run therefore completes with `all_verifications_passed = true`. -/
theorem empty_changes_verification_vacuous
    (compiler_result safety_result : Except Unit VerifierOutcome)
    (judge_enabled : Bool) (threshold : ℚ) (gen : Except Unit (Option String))
    (parse_float : String → Option ℚ) :
    final_verification [] compiler_result safety_result = true ∧
      (run_llm_judge [] judge_enabled threshold gen parse_float).passed = true :=
  ⟨rfl, rfl⟩

/-- The parser loop appends one step per kept line, numbering them after the
accumulator. -/
theorem parse_plan_steps_aux_eq (lines : List String) :
    ∀ acc, parse_plan_steps_aux lines acc =
      acc ++ number_steps acc.length ((lines.map py_strip).filter kept_line) := by
  induction lines with
  | nil => intro acc; simp [parse_plan_steps_aux, number_steps]
  | cons line rest ih =>
    intro acc
    simp only [parse_plan_steps_aux, List.map_cons, List.filter_cons]
    cases h : kept_line (py_strip line) with
    | false => simpa [h] using ih acc
    | true =>
      simp only [h, if_true]
      rw [ih (acc ++ [parse_step_line acc.length (py_strip line)])]
      simp [number_steps, List.append_assoc]

/-- C5 (amended): the parser keeps exactly the stripped lines that begin with
a decimal digit — one step per such line, in order, numbered densely, capped
at 10 — and drops every other line; a digit-initial line lacking the
`" - "`-separated shape still yields a step (`parse_step_line` puts the whole
remainder after the ordinal into the description). -/
theorem parse_plan_steps_characterization (content : String) :
    parse_plan_steps content = (number_steps 0 (kept_lines content)).take 10 := by
  unfold parse_plan_steps kept_lines
  rw [parse_plan_steps_aux_eq]
  simp

/-- C5 counterexample: a non-empty intent line that does not begin with a
digit yields no step at all — the claimed description-only degradation does
not happen for it. -/
theorem parse_plan_steps_drops_nondigit_line :
    py_strip "Review the code for issues" ≠ "" ∧
      parse_plan_steps "Review the code for issues" = [] := by
  constructor
  · decide
  · rfl

/-- C6: when the generation call fails outright, or returns `None` or empty
content, planning does not propagate the error: the resulting plan is the
synthetic fallback plan with exactly one step whose action is `"review"`. -/
theorem plan_failure_fallback (prompt : String) (files : List String)
    (gen : Except Unit (Option String))
    (h : gen = .error () ∨ gen = .ok none ∨ gen = .ok (some "")) :
    (create_plan prompt files gen).steps = default_plan_steps files ∧
      (create_plan prompt files gen).steps.map PlanStep.action = ["review"] := by
  rcases h with rfl | rfl | rfl <;> exact ⟨rfl, rfl⟩

/-- C3 counterexample: a change targeting a file listed in the site
`certified_modules` passes the safety verification untouched — the
forbidden-file sub-check compares against a hardcoded list and never reads
the site configuration. -/
theorem safety_ignores_site_certified_modules :
    c3_change.file_path ∈ c3_site.certified_modules ∧
      (safety_verify [c3_change] c3_site).passed = true ∧
      (safety_verify [c3_change] c3_site).critical = false := by
  decide

/-- The forbidden-modifications sub-check fails whenever some change path
contains one of the hardcoded forbidden file names. -/
theorem check_forbidden_fails (changes : List PyChange)
    (h : ∃ c ∈ changes, forbidden_change c = true) :
    (check_forbidden_modifications changes).passed = false := by
  unfold check_forbidden_modifications
  cases hf : changes.find? forbidden_change with
  | some c => rfl
  | none =>
    obtain ⟨c, hc, hfc⟩ := h
    have := List.find?_eq_none.mp hf c hc
    simp [hfc] at this

/-- C3 (amended): the forbidden-file gate exists but is keyed on the
hardcoded list `forbidden_files`, not on the site `certified_modules`: any
change whose path contains one of the two hardcoded names makes the safety
verification return `passed=false` with `critical=true`. -/
theorem hardcoded_forbidden_file_fails_safety (changes : List PyChange)
    (site : SiteM) (h : ∃ c ∈ changes, forbidden_change c = true) :
    (safety_verify changes site).passed = false ∧
      (safety_verify changes site).critical = true := by
  have h4 := check_forbidden_fails changes h
  constructor <;> simp [safety_verify, List.all_cons, h4]

/-- C3 (amended) witness: the hard stop evaluated on a concrete change that
touches `certified_safety_logic.st`. -/
theorem hardcoded_forbidden_file_fails_safety_witness :
    (safety_verify [c3_amended_change] c3_site).passed = false ∧
      (safety_verify [c3_amended_change] c3_site).critical = true :=
  hardcoded_forbidden_file_fails_safety [c3_amended_change] c3_site (by decide)

/-- One executed step advances the turn counter by at most 2. -/
theorem execute_step_turns_le (cfg : AgentCfg) (b : StepBehavior) (t : Nat) :
    (execute_step cfg b t).1 ≤ t + 2 := by
  cases b with
  | raises => simp [execute_step]
  | noChange => simp [execute_step]
  | change q f =>
    simp only [execute_step]
    split
    · split <;> omega
    · omega

/-- An executed proposable step advances the turn counter by at least 1. -/
theorem execute_step_turns_ge (cfg : AgentCfg) (b : StepBehavior) (t : Nat)
    (h : is_proposing b = true) : t + 1 ≤ (execute_step cfg b t).1 := by
  cases b with
  | raises => exact absurd h (by simp [is_proposing])
  | noChange => exact absurd h (by simp [is_proposing])
  | change q f =>
    simp only [execute_step]
    split
    · split <;> omega
    · omega

/-- An executed proposable step is recorded as `"completed"`. -/
theorem execute_step_status (cfg : AgentCfg) (b : StepBehavior) (t : Nat)
    (h : is_proposing b = true) : (execute_step cfg b t).2 = "completed" := by
  cases b with
  | raises => exact absurd h (by simp [is_proposing])
  | noChange => rfl
  | change q f =>
    simp only [execute_step]
    split
    · rfl
    · rfl

/-- The loop never pushes the counter past `max_turns + 1`. -/
theorem execute_plan_loop_turns_le (cfg : AgentCfg) (bs : List StepBehavior) :
    ∀ t, t ≤ cfg.max_turns + 1 →
      (execute_plan_loop cfg bs t).1 ≤ cfg.max_turns + 1 := by
  induction bs with
  | nil => intro t ht; simpa [execute_plan_loop] using ht
  | cons b rest ih =>
    intro t ht
    simp only [execute_plan_loop]
    split
    · simpa using ht
    · rename_i hlt
      exact ih (execute_step cfg b t).1
        (by have := execute_step_turns_le cfg b t; omega)

/-- When every step proposes a change, the statuses past index
`max_turns - t` are all still `"pending"`. -/
theorem execute_plan_loop_pending (cfg : AgentCfg) (bs : List StepBehavior)
    (hall : ∀ b ∈ bs, is_proposing b = true) :
    ∀ t, ∀ st ∈ (execute_plan_loop cfg bs t).2.drop (cfg.max_turns - t),
      st = "pending" := by
  induction bs with
  | nil => intro t st hst; simp [execute_plan_loop] at hst
  | cons b rest ih =>
    intro t st hst
    by_cases hbr : cfg.max_turns ≤ t
    · simp only [execute_plan_loop, if_pos hbr] at hst
      have hmem : st ∈ (b :: rest).map (fun _ => "pending") :=
        List.drop_subset _ _ hst
      obtain ⟨a, -, ha⟩ := List.mem_map.mp hmem
      exact ha.symm
    · have hstep := execute_step_turns_ge cfg b t (hall b (by simp))
      simp only [execute_plan_loop, if_neg hbr] at hst
      rw [show cfg.max_turns - t = (cfg.max_turns - t - 1) + 1 by omega,
        List.drop_succ_cons] at hst
      have hsub :
          (execute_plan_loop cfg rest (execute_step cfg b t).1).2.drop
              (cfg.max_turns - t - 1) ⊆
            (execute_plan_loop cfg rest (execute_step cfg b t).1).2.drop
              (cfg.max_turns - (execute_step cfg b t).1) := by
        rw [show cfg.max_turns - t - 1 =
          (cfg.max_turns - (execute_step cfg b t).1) +
            (cfg.max_turns - t - 1 - (cfg.max_turns - (execute_step cfg b t).1))
          by omega, ← List.drop_drop]
        exact List.drop_subset _ _
      exact ih (fun x hx => hall x (by simp [hx])) _ st (hsub hst)

/-- When every step proposes a change, at most `max_turns - t` steps leave the
`"pending"` status. -/
theorem execute_plan_loop_processed_le (cfg : AgentCfg) (bs : List StepBehavior)
    (hall : ∀ b ∈ bs, is_proposing b = true) :
    ∀ t, (execute_plan_loop cfg bs t).2.countP (fun s => s != "pending") ≤
      cfg.max_turns - t := by
  induction bs with
  | nil => intro t; simp [execute_plan_loop]
  | cons b rest ih =>
    intro t
    by_cases hbr : cfg.max_turns ≤ t
    · simp only [execute_plan_loop, if_pos hbr]
      have : ((b :: rest).map (fun _ => "pending")).countP
          (fun s => s != "pending") = 0 := by
        rw [List.countP_eq_zero]
        intro a ha
        obtain ⟨x, -, hx⟩ := List.mem_map.mp ha
        simp [← hx]
      omega
    · have hstep := execute_step_turns_ge cfg b t (hall b (by simp))
      have hrest := ih (fun x hx => hall x (by simp [hx])) (execute_step cfg b t).1
      simp only [execute_plan_loop, if_neg hbr, List.countP_cons]
      split
      · omega
      · omega

/-- C2 counterexample: with `max_turns = 1` and quick verification enabled, a
single step whose change fails quick verification and is then fixed leaves
`turns_taken = 2 > max_turns` — the fix attempt increments the counter without
re-checking the budget. -/
theorem execute_plan_exceeds_max_turns :
    (execute_plan { max_turns := 1, enable_quick_verify := true }
      [.change false true]).1 = 2 := by
  decide

/-- C2 (amended): `turns_taken` never exceeds `max_turns + 1` (the single fix
attempt of the step that reaches the budget can overshoot by exactly one),
and when every step proposes a change, at most `max_turns` steps leave the
`"pending"` status and every status from index `max_turns` on is still
`"pending"` — excess steps are never marked `"failed"`. -/
theorem execute_plan_turn_budget (cfg : AgentCfg) (bs : List StepBehavior) :
    (execute_plan cfg bs).1 ≤ cfg.max_turns + 1 ∧
      ((∀ b ∈ bs, is_proposing b = true) →
        (execute_plan cfg bs).2.countP (fun s => s != "pending") ≤ cfg.max_turns ∧
          ∀ st ∈ (execute_plan cfg bs).2.drop cfg.max_turns, st = "pending") := by
  refine ⟨execute_plan_loop_turns_le cfg bs 0 (by omega), fun hall => ⟨?_, ?_⟩⟩
  · simpa using execute_plan_loop_processed_le cfg bs hall 0
  · intro st hst
    exact execute_plan_loop_pending cfg bs hall 0 st (by simpa using hst)

/-- C2 (amended) witness: the budget bound and the processed-step bound
evaluated on a concrete three-step all-proposing plan with `max_turns = 2`. -/
theorem execute_plan_turn_budget_witness :
    (execute_plan { max_turns := 2, enable_quick_verify := true }
        [.change true true, .change true true, .change true true]).1 ≤ 3 ∧
      (execute_plan { max_turns := 2, enable_quick_verify := true }
          [.change true true, .change true true, .change true true]).2.countP
        (fun s => s != "pending") ≤ 2 :=
  ⟨(execute_plan_turn_budget _ _).1,
   ((execute_plan_turn_budget _ _).2 (by decide)).1⟩

/-- C10 witness: empty-change vacuous verification evaluated at concrete
verifier outcomes and a concrete failing generation call. -/
theorem empty_changes_verification_vacuous_witness :
    final_verification [] (.ok { passed := some false, critical := some true })
        (.error ()) = true ∧
      (run_llm_judge [] true (7 / 10) (.error ()) sample_parse_float).passed = true :=
  empty_changes_verification_vacuous
    (.ok { passed := some false, critical := some true }) (.error ()) true (7 / 10)
    (.error ()) sample_parse_float

/-- C5 (amended) witness: the parser characterization evaluated at a concrete
two-line output with one digit-initial line. -/
theorem parse_plan_steps_characterization_witness :
    parse_plan_steps "intro\n1. update - a.st - add alarm" =
      (number_steps 0 (kept_lines "intro\n1. update - a.st - add alarm")).take 10 :=
  parse_plan_steps_characterization "intro\n1. update - a.st - add alarm"

/-- In a list of booleans, the `true`s and the `false`s partition the list. -/
theorem count_true_add_count_false (l : List Bool) :
    l.count true + l.count false = l.length := by
  induction l with
  | nil => rfl
  | cons b t ih => cases b <;> simp [List.count_cons] <;> omega

/-- C4 counterexample: a fleet of one site with a migration whose filter
matches nothing takes the no-match early return: `total_sites = 0` but
`skipped_sites = 1`, so `successful + failed + skipped ≠ total`. -/
theorem migration_counts_not_a_partition :
    (run_migration fleet_one (some filter_nomatch) [] (fun _ => true)).successful_sites +
        (run_migration fleet_one (some filter_nomatch) [] (fun _ => true)).failed_sites +
        (run_migration fleet_one (some filter_nomatch) [] (fun _ => true)).skipped_sites ≠
      (run_migration fleet_one (some filter_nomatch) [] (fun _ => true)).total_sites := by
  decide

/-- C4 (amended): the count identity that actually holds is
`successful_sites + failed_sites = total_sites` — `total_sites` counts only
the selected sites, while `skipped_sites` counts the configured sites that
were filtered out and is not part of the total. -/
theorem migration_counts_identity (fleet : List SiteM) (mig : Option TargetFilterM)
    (target_sites : List String) (site_success : SiteM → Bool) :
    (run_migration fleet mig target_sites site_success).successful_sites +
        (run_migration fleet mig target_sites site_success).failed_sites =
      (run_migration fleet mig target_sites site_success).total_sites := by
  cases mig with
  | none => rfl
  | some tf =>
    simp only [run_migration]
    split <;> split
    · rfl
    · exact count_true_add_count_false _
    · rfl
    · exact count_true_add_count_false _

/-- C4 (amended) witness: the successful/failed partition of the total
evaluated on a concrete five-site migration. -/
theorem migration_counts_identity_witness :
    (run_migration fleet_five (some include_plant02) [] (fun _ => true)).successful_sites +
        (run_migration fleet_five (some include_plant02) [] (fun _ => true)).failed_sites =
      (run_migration fleet_five (some include_plant02) [] (fun _ => true)).total_sites :=
  migration_counts_identity fleet_five (some include_plant02) [] (fun _ => true)

/-- C8: a non-empty include list alone determines membership — the selection
is exactly the configured sites whose names appear in it, all other criteria
being ignored — and in the concrete scenario of a five-site fleet with
`include_sites=["Plant-02"]` the migration result has `total_sites = 1` and
`skipped_sites = 4`. -/
theorem include_list_determines_selection :
    (∀ (fleet : List SiteM) (tf : TargetFilterM) (site_success : SiteM → Bool),
        tf.include_sites ≠ [] →
          filter_sites fleet tf =
              fleet.filter (fun s => tf.include_sites.contains s.name) ∧
            (run_migration fleet (some tf) [] site_success).total_sites =
              (fleet.filter (fun s => tf.include_sites.contains s.name)).length ∧
            (run_migration fleet (some tf) [] site_success).skipped_sites =
              fleet.length -
                (fleet.filter (fun s => tf.include_sites.contains s.name)).length) ∧
      (run_migration fleet_five (some include_plant02) [] (fun _ => true)).total_sites
          = 1 ∧
      (run_migration fleet_five (some include_plant02) [] (fun _ => true)).skipped_sites
          = 4 := by
  refine ⟨?_, by decide, by decide⟩
  intro fleet tf site_success h
  have hb : (tf.include_sites != []) = true := by simpa [bne_iff_ne] using h
  have hfs : filter_sites fleet tf =
      fleet.filter (fun s => tf.include_sites.contains s.name) := by
    unfold filter_sites
    rw [if_pos hb]
  have hbne : ((([] : List String) != []) = true) = False := by simp
  refine ⟨hfs, ?_, ?_⟩ <;>
    · simp only [run_migration, hbne, if_false, hfs]
      by_cases hE :
        (fleet.filter (fun s => tf.include_sites.contains s.name)).isEmpty = true
      · have hnil := List.isEmpty_iff.mp hE
        rw [if_pos hE, hnil]
        all_goals simp
      · rw [if_neg hE]
        all_goals simp

/-- C8 witness: the include-list characterization applied to the concrete
five-site fleet. -/
theorem include_list_determines_selection_witness :
    filter_sites fleet_five include_plant02 =
        fleet_five.filter (fun s => include_plant02.include_sites.contains s.name) ∧
      (run_migration fleet_five (some include_plant02) [] (fun _ => true)).total_sites =
        (fleet_five.filter
          (fun s => include_plant02.include_sites.contains s.name)).length ∧
      (run_migration fleet_five (some include_plant02) [] (fun _ => true)).skipped_sites =
        fleet_five.length -
          (fleet_five.filter
            (fun s => include_plant02.include_sites.contains s.name)).length :=
  include_list_determines_selection.1 fleet_five include_plant02 (fun _ => true)
    (by decide)

/-- C6 witness: the fallback plan evaluated on a concrete failing generation
call. -/
theorem plan_failure_fallback_witness :
    (create_plan "Update alarm handling" ["src/main_program.st"]
        (.error ())).steps = default_plan_steps ["src/main_program.st"] ∧
      (create_plan "Update alarm handling" ["src/main_program.st"]
          (.error ())).steps.map PlanStep.action = ["review"] :=
  plan_failure_fallback "Update alarm handling" ["src/main_program.st"]
    (.error ()) (Or.inl rfl)

end BCA
